import Mathlib

/-!
Verification development for the ICS-guard flow-detection and
policy-enforcement core.

Shallow embedding of the Python sources:
* src/controller/modules/policy.py       (PolicyManager.check_packet)
* src/app/services/inference.py          (InferenceService.predict_flow)
* src/app/services/flow_detection.py     (_sync_flow_to_db, _process_batch,
                                          _auto_respond_to_dangerous_flow)
* src/app/services/controller_client.py  (ControllerClient._request et al.)
* src/app/services/event_subscriber.py   (record_event_for_ui / get_recent_events)

Numeric flow statistics and times are modelled with the rationals; Python
dictionaries with optional fields become structures of Option fields; code
that can raise returns Option / Except values.
-/

namespace ICSGuard

/-! ## A small universe of Python JSON-ish values

Used for the policy action parameters that check_packet threads through
(its action_params output), where the source stores arbitrary dict content. -/

inductive PVal where
  | str : String → PVal
  | int : Int → PVal
  | list : List PVal → PVal
  | dict : List (String × PVal) → PVal

/-- Lookup of a key in a Python-dict model, as the source's
key-in-dict test plus indexing. -/
def lookupKey (l : List (String × PVal)) (k : String) : Option PVal :=
  match l.find? (fun kv => kv.1 == k) with
  | some kv => some kv.2
  | none => none

/-! ## Policy engine (src/controller/modules/policy.py)

PolicyManager.check_packet iterates self.policies.values(); we model the
stored policies as a list in iteration order.  A policy dict's fields of
interest become Option fields (a missing dict key is none).  The source's
robustness branch that json-parses a string-valued conditions field is not
modelled: conditions arrive already structured. -/

/-- The conditions dict of a policy.  dst_port is stored as written in the
policy, and int-parsed at match time: some (some n) is a value that parses
to n, some none a present value on which int() raises (the source ignores
such a condition). -/
structure Conditions where
  src_ip : Option String := none
  dst_ip : Option String := none
  protocol : Option String := none
  dst_port : Option (Option Int) := none
  src_mac : Option String := none
  dst_mac : Option String := none
  allowed_ips : Option (List String) := none
  denied_ips : Option (List String) := none

/-- The nested actions.primary_action value: the source accepts either a
dict with action_type / action_params keys or a bare string. -/
inductive PrimaryActionVal where
  | asStr : String → PrimaryActionVal
  | obj : Option String → List (String × PVal) → PrimaryActionVal

/-- The nested actions dict: primary_action, plus the flat legacy keys
rate_limit and redirect_target the source also reads. -/
structure PolicyActions where
  primary_action : Option PrimaryActionVal := none
  rate_limit : Option PVal := none
  redirect_target : Option PVal := none

/-- A stored policy.  target_id may sit at the root or inside scope;
priority is int-parsed with default 0 when the key is missing. -/
structure Policy where
  id : Option String := none
  name : Option String := none
  status : Option String := none
  target_id : Option String := none
  scope_target_id : Option String := none
  priority : Option Int := none
  conditions : Conditions := {}
  action : Option String := none
  actions : Option PolicyActions := none

/-- The packet-derived arguments of check_packet.  A none is a Python None. -/
structure Packet where
  src_mac : Option String := none
  dst_mac : Option String := none
  src_ip : Option String := none
  dst_ip : Option String := none
  protocol : Option String := none
  dst_port : Option Int := none

/-- Python truthiness of an optional string: None and the empty string are
falsy. -/
def pyTruthy : Option String → Bool
  | none => false
  | some s => !(s == "")

/-- ASCII lower-casing of one character (the protocol and action strings the
engine compares are ASCII, where Python lower/upper agree with this). -/
def asciiLowerChar (c : Char) : Char :=
  if 'A' ≤ c && c ≤ 'Z' then Char.ofNat (c.toNat + 32) else c

/-- str.lower() on ASCII content. -/
def asciiLower (s : String) : String := ⟨s.data.map asciiLowerChar⟩

/-- ASCII upper-casing of one character. -/
def asciiUpperChar (c : Char) : Char :=
  if 'a' ≤ c && c ≤ 'z' then Char.ofNat (c.toNat - 32) else c

/-- str.upper() on ASCII content. -/
def asciiUpper (s : String) : String := ⟨s.data.map asciiUpperChar⟩

/-- str.strip(): drop leading and trailing whitespace. -/
def pyStrip (s : String) : String :=
  ⟨((s.data.dropWhile Char.isWhitespace).reverse.dropWhile Char.isWhitespace).reverse⟩

/-- target_id resolution: the root key, else scope.target_id; stripped, and
only a non-empty result scopes the policy. -/
def resolveTargetId (p : Policy) : Option String :=
  let t0 := match p.target_id with
    | some s => if s == "" then p.scope_target_id else some s
    | none => p.scope_target_id
  match t0 with
  | some s => if pyStrip s == "" then none else some (pyStrip s)
  | none => none

/-- Steps 0-5 of the match loop: scope check, then the src_ip, dst_ip,
protocol (case-insensitive), dst_port (int-parsed), src_mac and dst_mac
condition checks, each only narrowing the running match flag. -/
def matchesPre (p : Policy) (pkt : Packet) : Bool :=
  let conds := p.conditions
  let m0 := match resolveTargetId p with
    | some t => (pkt.src_mac == some t) || (pkt.dst_mac == some t)
    | none => true
  let m1 := m0 && (match conds.src_ip with
    | some v => pyTruthy pkt.src_ip && (pkt.src_ip == some v)
    | none => true)
  let m2 := m1 && (match conds.dst_ip with
    | some v => pyTruthy pkt.dst_ip && (pkt.dst_ip == some v)
    | none => true)
  let m3 := m2 && (match conds.protocol with
    | some v => (match pkt.protocol with
        | some s => !(s == "") && (asciiUpper v == asciiUpper s)
        | none => false)
    | none => true)
  let m4 := m3 && (match conds.dst_port with
    | some pc => (match pkt.dst_port with
        | none => false
        | some dp => (match pc with
            | some tp => tp == dp
            | none => true))
    | none => true)
  let m5 := m4 && (match conds.src_mac with
    | some v => pkt.src_mac == some v
    | none => true)
  m5 && (match conds.dst_mac with
    | some v => pkt.dst_mac == some v
    | none => true)

/-- Whether the policy carries either ACL list (step 6 runs only then). -/
def aclRelevant (p : Policy) : Bool :=
  p.conditions.allowed_ips.isSome || p.conditions.denied_ips.isSome

/-- The remote IPs step 6 checks: with a scoped target, the IP opposite each
matching MAC; unscoped, both packet IPs. -/
def ipsToCheck (p : Policy) (pkt : Packet) : List (Option String) :=
  match resolveTargetId p with
  | some t =>
      (if pkt.src_mac == some t then [pkt.dst_ip] else []) ++
      (if pkt.dst_mac == some t then [pkt.src_ip] else [])
  | none => [pkt.src_ip, pkt.dst_ip]

/-- Membership test of the source's ACL loop body: the ip itself, or either
wildcard form, present in the list.  A None ip never equals a listed string. -/
def aclHit (l : List String) (ips : List (Option String)) : Bool :=
  ips.any (fun ip =>
    (match ip with | some s => l.contains s | none => false) ||
    l.contains "*" || l.contains "*.*.*.*")

/-- is_denied of step 6. -/
def aclDenied (p : Policy) (pkt : Packet) : Bool :=
  match p.conditions.denied_ips with
  | some dl => aclHit dl (ipsToCheck p pkt)
  | none => false

/-- is_allowed of step 6 (an absent allowed list allows everything). -/
def aclAllowed (p : Policy) (pkt : Packet) : Bool :=
  match p.conditions.allowed_ips with
  | some al => aclHit al (ipsToCheck p pkt)
  | none => true

/-- The complete per-policy match flag: steps 0-5, then the step-6
conflict resolution that reassigns the flag (deny wins, then whitelist
absence blocks, else the ACL policy does not match). -/
def policyMatches (p : Policy) (pkt : Packet) : Bool :=
  let m := matchesPre p pkt
  if m && aclRelevant p then
    (if aclDenied p pkt then true
     else if !(aclAllowed p pkt) then true
     else false)
  else m

/-- actions - primary_action - action_type extraction with its params. -/
def nestedAction (p : Policy) : Option String × List (String × PVal) :=
  match p.actions with
  | some acts =>
      match acts.primary_action with
      | some (.obj ty params) => (ty, params)
      | some (.asStr s) => (some s, [])
      | none => (none, [])
  | none => (none, [])

/-- The raw action string and current_params: the flat action field first
(Python-falsy values fall through), else the nested structure. -/
def rawActionOf (p : Policy) : Option String × List (String × PVal) :=
  match p.action with
  | some a => if a == "" then nestedAction p else (some a, [])
  | none => nestedAction p

/-- str(act).lower() with the default allow for a falsy act. -/
def normalizedAction (p : Policy) : String :=
  let a := match (rawActionOf p).1 with
    | some s => if s == "" then "allow" else s
    | none => "allow"
  asciiLower a

/-- The final_action the source assigns for a selected policy: deny, block
and drop collapse to drop; throttle and redirect pass through; anything
else is allow. -/
def resolvedAction (p : Policy) : String :=
  let al := normalizedAction p
  if al == "deny" || al == "block" || al == "drop" then "drop"
  else if al == "throttle" then "throttle"
  else if al == "redirect" then "redirect"
  else "allow"

/-- The action_params the source assigns for a selected policy.  Only the
throttle and redirect branches write the accumulator; drop and allow leave
the previous value in place. -/
def resolvedParams (p : Policy) (prev : PVal) : PVal :=
  let cur := (rawActionOf p).2
  let al := resolvedAction p
  if al == "throttle" then
    match lookupKey cur "rate_limit" with
    | some v => v
    | none =>
        match p.actions.bind (fun a => a.rate_limit) with
        | some v => v
        | none => PVal.dict cur
  else if al == "redirect" then
    match lookupKey cur "targets" with
    | some _ => PVal.dict cur
    | none =>
        match p.actions.bind (fun a => a.redirect_target) with
        | some v => PVal.dict [("targets", PVal.list [PVal.dict [("ip", v)]])]
        | none => PVal.dict cur
  else prev

/-- int(policy.get('priority', 0)). -/
def priorityOf (p : Policy) : Int :=
  p.priority.getD 0

/-- policy.get('status') == 'active'. -/
def isActive (p : Policy) : Bool :=
  p.status == some "active"

/-- The loop accumulator of check_packet. -/
structure CheckState where
  final_action : String := "allow"
  reason : Option String := none
  action_params : PVal := PVal.dict []
  highest : Int := -1

/-- One iteration of the check_packet loop: inactive policies are skipped;
a matching policy whose priority strictly exceeds the running highest
replaces action, reason and params. -/
def checkStep (pkt : Packet) (st : CheckState) (p : Policy) : CheckState :=
  if !(isActive p) then st
  else if policyMatches p pkt then
    (if priorityOf p > st.highest then
      { final_action := resolvedAction p
        reason := p.name <|> p.id
        action_params := resolvedParams p st.action_params
        highest := priorityOf p }
     else st)
  else st

/-- PolicyManager.check_packet: fold the loop over the stored policies and
return (action, reason, action_params). -/
def checkPacket (ps : List Policy) (pkt : Packet) : String × Option String × PVal :=
  let st := ps.foldl (checkStep pkt) {}
  (st.final_action, st.reason, st.action_params)

/-- The active policies that match the packet, in iteration order. -/
def matchedActive (ps : List Policy) (pkt : Packet) : List Policy :=
  ps.filter (fun p => isActive p && policyMatches p pkt)

/-- Claim C1 as stated: the returned action is that of a matched active
policy of maximal priority, and with no match the result is
(allow, nil, empty-params) — for all integer priorities. -/
def PriorityResolutionClaim (ps : List Policy) (pkt : Packet) : Prop :=
  if (matchedActive ps pkt).isEmpty then
    checkPacket ps pkt = ("allow", none, PVal.dict [])
  else
    ∃ p ∈ matchedActive ps pkt,
      (∀ q ∈ matchedActive ps pkt, priorityOf q ≤ priorityOf p) ∧
      (checkPacket ps pkt).1 = resolvedAction p

/-- Claim C2 as stated: a matched active policy whose denied_ips hits the
checked remote IPs forces the resolved action to drop. -/
def DeniedDominatesClaim (ps : List Policy) (pkt : Packet) : Prop :=
  ∀ p ∈ ps, isActive p = true → (p.conditions.denied_ips).isSome = true →
    policyMatches p pkt = true → aclDenied p pkt = true →
    (checkPacket ps pkt).1 = "drop"

/-! ## Inference service (src/app/services/inference.py)

predict_flow's control flow: the not-loaded default, the smart low-rate
whitelist, the insufficient-data whitelist, then the model call.  Flow
statistics are rationals; the classifier itself is the environment: it
either raises (none) or yields a probability and a label.  The outcome
carries a path tag naming the return statement taken, so that theorems can
speak about which rule fired. -/

/-- The five decision levels. -/
inductive DecisionLevel where
  | normal | alert | throttle | block | redirect
deriving DecidableEq, Repr

/-- ThresholdConfig with its source defaults. -/
structure ThresholdConfig where
  alert : ℚ := 3/10
  throttle : ℚ := 6/10
  block : ℚ := 8/10
  redirect : ℚ := 9/10

/-- ThresholdConfig.get_decision_level: the highest level whose threshold
the probability meets, else normal. -/
def getDecisionLevel (tc : ThresholdConfig) (prob : ℚ) : DecisionLevel :=
  if prob ≥ tc.redirect then .redirect
  else if prob ≥ tc.block then .block
  else if prob ≥ tc.throttle then .throttle
  else if prob ≥ tc.alert then .alert
  else .normal

/-- PredictionResult. -/
structure PredictionResult where
  prob : ℚ
  label : String
  anomaly_score : ℚ
  decision_level : DecisionLevel
deriving DecidableEq, Repr

/-- Which return statement of predict_flow produced the result. -/
inductive PredPath where
  | notLoaded | lowRateWhitelist | insufficientData | modelCall
deriving DecidableEq, Repr

/-- The fields of the input flow dict that predict_flow's whitelist rules
read.  Feature synthesis (build_feature_vector) only inserts derived keys
(sPackets, sSynRate, ...) that these rules never read, so it commutes with
them; the synthesized feature vector is consumed opaquely by the model
environment. -/
structure InferFlow where
  pkt_rate : Option ℚ := none
  func_code_entropy : Option ℚ := none
  reg_addr_std : Option ℚ := none
  pkt_count : Option ℚ := none

/-- The classifier as seen by predict_flow: none models an exception inside
the model call, some (prob, label) a successful predict_proba / predict
pair. -/
structure ModelEnv where
  outcome : Option (ℚ × String) := none

/-- Rule 1's guard: pkt_rate present and below 5, func_code_entropy
(flow.get or 0.0, so a missing value reads as 0.0) below 0.1 and
reg_addr_std (same) below 5. -/
def lowRateWhitelisted (flow : InferFlow) : Bool :=
  (match flow.pkt_rate with | some r => decide (r < 5) | none => false) &&
  decide (flow.func_code_entropy.getD 0 < 1/10) &&
  decide (flow.reg_addr_std.getD 0 < 5)

/-- Rule 2's guard: pkt_count absent, and not the pkt_rate-above-1000
escape that hands the flow to the model anyway. -/
def insufficientDataGate (flow : InferFlow) : Bool :=
  flow.pkt_count.isNone &&
  !(match flow.pkt_rate with | some r => decide (r > 1000) | none => false)

/-- InferenceService.predict_flow.  isLoaded is self.is_loaded
(self._loaded and the model object present). -/
def predictFlow (isLoaded : Bool) (tc : ThresholdConfig) (env : ModelEnv)
    (flow : InferFlow) : PredictionResult × PredPath :=
  if !isLoaded then
    (⟨0, "Unknown", 0, .normal⟩, .notLoaded)
  else if lowRateWhitelisted flow then
    (⟨1/100, "Normal", 0, .normal⟩, .lowRateWhitelist)
  else if insufficientDataGate flow then
    (⟨0, "Normal", 0, .normal⟩, .insufficientData)
  else
    match env.outcome with
    | none => (⟨0, "Error", 0, .normal⟩, .modelCall)
    | some (prob, label) =>
        (⟨prob, label, prob, getDecisionLevel tc prob⟩, .modelCall)

/-- Claim C5 as stated: with the classifier loaded and pkt_count absent, a
pkt_rate of at most 1000 short-circuits to prob 0 at level normal, and a
pkt_rate above 1000 proceeds to the model — for every such flow, low-rate
flows included. -/
def InsufficientDataClaim (tc : ThresholdConfig) (env : ModelEnv)
    (flow : InferFlow) : Prop :=
  flow.pkt_count = none →
    ∀ r, flow.pkt_rate = some r →
      (r ≤ 1000 →
        (predictFlow true tc env flow).1.prob = 0 ∧
        (predictFlow true tc env flow).1.decision_level = .normal ∧
        (predictFlow true tc env flow).2 = .insufficientData) ∧
      (r > 1000 → (predictFlow true tc env flow).2 = .modelCall)

/-! ## Detection pipeline write-back (src/app/services/flow_detection.py)

_map_decision_to_status and the UI push of _process_batch. -/

/-- _map_decision_to_status. -/
def mapDecisionToStatus (level : DecisionLevel) : String :=
  match level with
  | .normal => "safe"
  | .alert => "suspicious"
  | .throttle | .block | .redirect => "dangerous"

/-- Python call compatibility: binding npos positional arguments and the
named keyword arguments against a parameter list succeeds only when every
keyword names a parameter not already bound positionally (otherwise the
call raises TypeError). -/
def pyCallBindsOk (params : List String) (npos : Nat) (kwargs : List String) : Bool :=
  npos ≤ params.length && kwargs.all (fun k => (params.drop npos).contains k)

/-- The parameter list of record_event_for_ui as defined in
event_subscriber.py: def record_event_for_ui(event). -/
def recordEventForUiParams : List String := ["event"]

/-- The keyword arguments the UI push in _process_batch passes:
record_event_for_ui(det_event, session=session). -/
def processBatchUiCallKwargs : List String := ["session"]

/-- A flow_detection_result event as the UI push would enqueue it. -/
structure DetectionUiEvent where
  flow_id : String
  detect_status : String
  prob : ℚ
deriving DecidableEq, Repr

/-- The UI events _process_batch manages to enqueue for a batch of
per-task results (flow_id, decision level, prob).  The push is attempted
for every deduplicated task, with no status or probability filter; the
surrounding try swallows the TypeError the call raises when the binding
fails. -/
def processBatchUiEvents (results : List (String × DecisionLevel × ℚ)) :
    List DetectionUiEvent :=
  results.filterMap (fun r =>
    if pyCallBindsOk recordEventForUiParams 1 processBatchUiCallKwargs then
      some ⟨r.1, mapDecisionToStatus r.2.1, r.2.2⟩
    else none)

/-! ## Event ring-buffer query (src/app/services/event_subscriber.py)

get_recent_events slices the buffer first (Python list slicing with a
negative start), then filters by type.  Events carry their type plus an
abstract payload tag. -/

/-- A cached UI event: its type name and an opaque payload tag. -/
structure CachedEvent where
  event_type : String
  payload : Nat
deriving DecidableEq, Repr

/-- Python ring-buffer slice buf[-limit:]: the whole buffer when limit is 0
(since -0 is 0), else the last limit elements. -/
def pySliceLast (buf : List CachedEvent) (limit : Nat) : List CachedEvent :=
  if limit = 0 then buf else buf.drop (buf.length - limit)

/-- Whether an event passes the optional type filter. -/
def passesFilter (filt : Option (List String)) (e : CachedEvent) : Bool :=
  match filt with
  | some ts => ts.contains e.event_type
  | none => true

/-- get_recent_events: slice to the last limit entries, then filter by
event type, returning the events in buffer (oldest-first) order. -/
def getRecentEvents (buf : List CachedEvent) (limit : Nat)
    (filt : Option (List String)) : List CachedEvent :=
  (pySliceLast buf limit).filter (passesFilter filt)

/-- What claim C9 states the query returns (written from the spec's words,
for comparison): the most recent matching events, most-recent-first, at
most limit of them. -/
def specRecentEvents (buf : List CachedEvent) (limit : Nat)
    (filt : Option (List String)) : List CachedEvent :=
  ((buf.filter (passesFilter filt)).reverse).take limit

/-- Claim C9 as stated, as the refinement of the query by its spec. -/
def RecentEventsClaim (buf : List CachedEvent) (limit : Nat)
    (filt : Option (List String)) : Prop :=
  getRecentEvents buf limit filt = specRecentEvents buf limit filt

/-! ## Flow store upsert (src/app/services/flow_detection.py, _sync_flow_to_db)

The row type is parameterized by the timestamp type T together with the
iso-8601 parser (Option-valued: unparseable strings become None) and the
json.dumps serialization of the JSON-valued payload fields, so every
theorem below holds for the concrete parser and serializer of the source. -/

/-- The flow dict of one flow_update event, at the granularity
_sync_flow_to_db reads it. -/
structure FlowEventPayload where
  src_ip : Option String := none
  dst_ip : Option String := none
  src_port : Option Int := none
  dst_port : Option Int := none
  protocol : Option String := none
  start_time : Option String := none
  end_time : Option String := none
  duration : Option ℚ := none
  pkt_count : Option Int := none
  byte_count : Option Int := none
  pkt_rate : Option ℚ := none
  byte_rate : Option ℚ := none
  func_code_entropy : Option ℚ := none
  reg_addr_std : Option ℚ := none
  policy_effects : Option PVal := none
  redirect_to : Option PVal := none
  final_dst : Option PVal := none
  blocked : Option Bool := none
  blocked_at : Option String := none
  block_reason : Option String := none
  path_hops : Option PVal := none

/-- An app_flows row (db/models.py AppFlow), with the columns
_sync_flow_to_db and the detection write-back touch. -/
structure AppFlowRow (T : Type) where
  flow_id : String
  src_ip : Option String
  dst_ip : Option String
  src_port : Option Int
  dst_port : Option Int
  protocol : Option String
  start_time : Option T
  end_time : Option T
  duration : Option ℚ
  pkt_count : Option Int
  byte_count : Option Int
  pkt_rate : Option ℚ
  byte_rate : Option ℚ
  func_code_entropy : Option ℚ
  reg_addr_std : Option ℚ
  policy_effects : Option String
  redirect_to : Option String
  final_dst : Option String
  blocked : Option Bool
  blocked_at : Option T
  block_reason : Option String
  path_hops : Option String
  detect_status : String
  decision_level : String
  prob : ℚ
  anomaly_score : ℚ
  detected_at : Option T

/-- The ingestion-owned fields of a row, bundled. -/
structure IngestFields (T : Type) where
  src_ip : Option String
  dst_ip : Option String
  src_port : Option Int
  dst_port : Option Int
  protocol : Option String
  start_time : Option T
  end_time : Option T
  duration : Option ℚ
  pkt_count : Option Int
  byte_count : Option Int
  pkt_rate : Option ℚ
  byte_rate : Option ℚ
  func_code_entropy : Option ℚ
  reg_addr_std : Option ℚ
  policy_effects : Option String
  redirect_to : Option String
  final_dst : Option String
  blocked : Option Bool
  blocked_at : Option T
  block_reason : Option String
  path_hops : Option String
deriving DecidableEq

/-- The detection-owned fields of a row, bundled. -/
structure DetectionFields (T : Type) where
  detect_status : String
  decision_level : String
  prob : ℚ
  anomaly_score : ℚ
  detected_at : Option T
deriving DecidableEq

/-- What _sync_flow_to_db computes from the event payload: parsed
timestamps and json-serialized JSON-valued fields, the rest verbatim. -/
def ingestOf {T : Type} (parseIso : Option String → Option T)
    (jsonDumps : PVal → String) (e : FlowEventPayload) : IngestFields T where
  src_ip := e.src_ip
  dst_ip := e.dst_ip
  src_port := e.src_port
  dst_port := e.dst_port
  protocol := e.protocol
  start_time := parseIso e.start_time
  end_time := parseIso e.end_time
  duration := e.duration
  pkt_count := e.pkt_count
  byte_count := e.byte_count
  pkt_rate := e.pkt_rate
  byte_rate := e.byte_rate
  func_code_entropy := e.func_code_entropy
  reg_addr_std := e.reg_addr_std
  policy_effects := e.policy_effects.map jsonDumps
  redirect_to := e.redirect_to.map jsonDumps
  final_dst := e.final_dst.map jsonDumps
  blocked := e.blocked
  blocked_at := parseIso e.blocked_at
  block_reason := e.block_reason
  path_hops := e.path_hops.map jsonDumps

/-- The ingestion-owned fields of a row. -/
def baseOf {T : Type} (r : AppFlowRow T) : IngestFields T where
  src_ip := r.src_ip
  dst_ip := r.dst_ip
  src_port := r.src_port
  dst_port := r.dst_port
  protocol := r.protocol
  start_time := r.start_time
  end_time := r.end_time
  duration := r.duration
  pkt_count := r.pkt_count
  byte_count := r.byte_count
  pkt_rate := r.pkt_rate
  byte_rate := r.byte_rate
  func_code_entropy := r.func_code_entropy
  reg_addr_std := r.reg_addr_std
  policy_effects := r.policy_effects
  redirect_to := r.redirect_to
  final_dst := r.final_dst
  blocked := r.blocked
  blocked_at := r.blocked_at
  block_reason := r.block_reason
  path_hops := r.path_hops

/-- The detection-owned fields of a row. -/
def detOf {T : Type} (r : AppFlowRow T) : DetectionFields T where
  detect_status := r.detect_status
  decision_level := r.decision_level
  prob := r.prob
  anomaly_score := r.anomaly_score
  detected_at := r.detected_at

/-- _sync_flow_to_db on one event: overwrite the ingestion fields of an
existing row, or insert a fresh row whose detection fields are the
pending / normal / 0 creation defaults (detected_at unset). -/
def syncFlowToDb {T : Type} (parseIso : Option String → Option T)
    (jsonDumps : PVal → String) (fid : String)
    (existing : Option (AppFlowRow T)) (e : FlowEventPayload) : AppFlowRow T :=
  let f := ingestOf parseIso jsonDumps e
  match existing with
  | some row =>
      { row with
        src_ip := f.src_ip
        dst_ip := f.dst_ip
        src_port := f.src_port
        dst_port := f.dst_port
        protocol := f.protocol
        start_time := f.start_time
        end_time := f.end_time
        duration := f.duration
        pkt_count := f.pkt_count
        byte_count := f.byte_count
        pkt_rate := f.pkt_rate
        byte_rate := f.byte_rate
        func_code_entropy := f.func_code_entropy
        reg_addr_std := f.reg_addr_std
        policy_effects := f.policy_effects
        redirect_to := f.redirect_to
        final_dst := f.final_dst
        blocked := f.blocked
        blocked_at := f.blocked_at
        block_reason := f.block_reason
        path_hops := f.path_hops }
  | none =>
      { flow_id := fid
        src_ip := f.src_ip
        dst_ip := f.dst_ip
        src_port := f.src_port
        dst_port := f.dst_port
        protocol := f.protocol
        start_time := f.start_time
        end_time := f.end_time
        duration := f.duration
        pkt_count := f.pkt_count
        byte_count := f.byte_count
        pkt_rate := f.pkt_rate
        byte_rate := f.byte_rate
        func_code_entropy := f.func_code_entropy
        reg_addr_std := f.reg_addr_std
        policy_effects := f.policy_effects
        redirect_to := f.redirect_to
        final_dst := f.final_dst
        blocked := f.blocked
        blocked_at := f.blocked_at
        block_reason := f.block_reason
        path_hops := f.path_hops
        detect_status := "pending"
        decision_level := "normal"
        prob := 0
        anomaly_score := 0
        detected_at := none }

/-- The ingestion upsert applied to a sequence of flow_update events of one
flow_id, in order. -/
def ingestEvents {T : Type} (parseIso : Option String → Option T)
    (jsonDumps : PVal → String) (fid : String)
    (init : Option (AppFlowRow T)) (es : List FlowEventPayload) :
    Option (AppFlowRow T) :=
  es.foldl (fun st e => some (syncFlowToDb parseIso jsonDumps fid st e)) init

/-- The creation-time detection fields of a fresh row. -/
def pendingDetection (T : Type) : DetectionFields T :=
  { detect_status := "pending", decision_level := "normal",
    prob := 0, anomaly_score := 0, detected_at := none }

/-! ## Auto-responder (src/app/services/flow_detection.py,
_auto_respond_to_dangerous_flow)

One invocation is driven by an environment: the honeypot lookup outcome
(exceptions in the topology call are swallowed into none), the
create_policy outcome (none models the call raising; some pid? a response
whose policy_id field may be absent), and whether apply_policy returns.
The process state is the responded set plus the log of successful
create_policy calls. -/

/-- The outcome of the controller interactions of one auto-response. -/
structure RespondEnv where
  honeypot_ip : Option String := none
  create_result : Option (Option String) := none
  apply_ok : Bool := true

/-- The process-local auto-responder state: the responded set, and one
created entry (its flow_id) per create_policy call that returned. -/
structure RespondState where
  responded : List String := []
  created : List String := []

/-- _auto_respond_to_dangerous_flow: gate on the responded set, select the
action (only redirect and block proceed; anything else returns with the
flow still gated), create, then apply; any exception removes the flow_id
from the responded set so a retry is possible. -/
def respondStep (st : RespondState) (fid : String) (level : String)
    (env : RespondEnv) : RespondState :=
  if st.responded.contains fid then st
  else
    let st1 : RespondState := { st with responded := fid :: st.responded }
    if level == "redirect" || level == "block" then
      match env.create_result with
      | none => { st1 with responded := st1.responded.erase fid }
      | some pid? =>
          let st2 : RespondState := { st1 with created := fid :: st1.created }
          match pid? with
          | none => st2
          | some _ =>
              if env.apply_ok then st2
              else { st2 with responded := st2.responded.erase fid }
    else st1

/-- A sequence of invocations (flow_id, decision_level, environment). -/
def runResponder (st : RespondState)
    (invs : List (String × String × RespondEnv)) : RespondState :=
  invs.foldl (fun s inv => respondStep s inv.1 inv.2.1 inv.2.2) st

/-- How many policies were successfully created for a flow_id. -/
def createdCount (st : RespondState) (fid : String) : Nat :=
  st.created.count fid

/-- An attempt that raised somewhere: create_policy raised, or it returned
a policy_id and apply_policy (or a later step of the try block) raised. -/
def RespondFailure (env : RespondEnv) : Prop :=
  env.create_result = none ∨
  (∃ pid, env.create_result = some (some pid) ∧ env.apply_ok = false)

/-- An environment with no failure after a successful policy creation. -/
def postCreateOk (env : RespondEnv) : Bool :=
  match env.create_result with
  | some (some _) => env.apply_ok
  | _ => true

/-- Claim C3 (first half) as stated: over every invocation sequence, at
most one policy is ever successfully created per flow_id. -/
def OncePerFlowClaim (invs : List (String × String × RespondEnv)) : Prop :=
  ∀ fid, createdCount (runResponder {} invs) fid ≤ 1

/-! ## Controller REST client (src/app/services/controller_client.py)

_request with auth and retry_on_401, over an environment giving the k-th
refresh response, the k-th token response and the k-th request status.
Time is frozen at env.now for the call.  The run state counts the HTTP
interactions consumed, which the theorems use to count refresh attempts
and request attempts. -/

/-- The token payload of a successful auth response
(expires_in defaults to 3600 in the source). -/
structure TokenData where
  access_token : String
  refresh_token : String
  expires_in : ℚ := 3600

/-- The stored TokenPair. -/
structure TokenPair where
  access_token : String
  refresh_token : String
  expires_at : ℚ

/-- One call's environment: the clock and the successive HTTP outcomes
(none models the HTTP interaction raising / returning a non-2xx that
_raise_for_status turns into an exception). -/
structure CallEnv where
  now : ℚ
  refreshResp : Nat → Option TokenData
  getResp : Nat → Option TokenData
  reqStatus : Nat → Nat

/-- The client state threaded through one _request call. -/
structure ClientRun where
  token : Option TokenPair := none
  refreshes : Nat := 0
  gets : Nat := 0
  reqs : Nat := 0

/-- refresh_token(): raises (none) without an HTTP call when no token is
stored; otherwise one refresh HTTP call, storing the new pair on success. -/
def doRefreshToken (env : CallEnv) (st : ClientRun) : Option TokenPair × ClientRun :=
  match st.token with
  | none => (none, st)
  | some _ =>
      let st1 : ClientRun := { st with refreshes := st.refreshes + 1 }
      match env.refreshResp st.refreshes with
      | none => (none, st1)
      | some td =>
          let tp : TokenPair :=
            ⟨td.access_token, td.refresh_token, env.now + td.expires_in⟩
          (some tp, { st1 with token := some tp })

/-- get_token(): one token HTTP call, storing the new pair on success. -/
def doGetToken (env : CallEnv) (st : ClientRun) : Option TokenPair × ClientRun :=
  let st1 : ClientRun := { st with gets := st.gets + 1 }
  match env.getResp st.gets with
  | none => (none, st1)
  | some td =>
      let tp : TokenPair :=
        ⟨td.access_token, td.refresh_token, env.now + td.expires_in⟩
      (some tp, { st1 with token := some tp })

/-- ensure_token(): return the stored access token while it is more than
60 s from expiry; otherwise try a refresh, and fall back to get_token,
whose failure propagates. -/
def ensureToken (env : CallEnv) (st : ClientRun) : Option String × ClientRun :=
  match st.token with
  | some t =>
      if t.expires_at > env.now + 60 then (some t.access_token, st)
      else
        match doRefreshToken env st with
        | (some tp, st1) => (some tp.access_token, st1)
        | (none, st1) =>
            match doGetToken env st1 with
            | (some tp, st2) => (some tp.access_token, st2)
            | (none, st2) => (none, st2)
  | none =>
      match doGetToken env st with
      | (some tp, st1) => (some tp.access_token, st1)
      | (none, st1) => (none, st1)

/-- The errors _request can surface: a 401 on the (possibly retried)
request, another HTTP error status, or a failure to obtain a token at all. -/
inductive ReqError where
  | authError
  | httpError (status : Nat)
  | tokenError
deriving DecidableEq, Repr

/-- _raise_for_status: 401 raises AuthenticationError, any other status of
at least 400 raises ControllerClientError, the rest pass. -/
def raiseForStatus (s : Nat) : Except ReqError Nat :=
  if s = 401 then .error .authError
  else if 400 ≤ s then .error (.httpError s)
  else .ok s

/-- What one _request call produced, with the final interaction counts. -/
structure ReqOutcome where
  result : Except ReqError Nat
  final : ClientRun

/-- The tail of the 401 handler: rebuild the Authorization header via
ensure_token, send the request once more and raise for its status. -/
def finishRetry (env : CallEnv) (st : ClientRun) : ReqOutcome :=
  match ensureToken env st with
  | (none, st1) => ⟨.error .tokenError, st1⟩
  | (some _, st1) =>
      let s2 := env.reqStatus st1.reqs
      ⟨raiseForStatus s2, { st1 with reqs := st1.reqs + 1 }⟩

/-- _request with auth=True and retry_on_401=True: ensure a token, send the
request; on a 401 refresh (falling back to get_token, whose failure
propagates) and retry exactly once; raise for the final status. -/
def controllerRequest (env : CallEnv) (st0 : ClientRun) : ReqOutcome :=
  match ensureToken env st0 with
  | (none, st1) => ⟨.error .tokenError, st1⟩
  | (some _, st1) =>
      let s1 := env.reqStatus st1.reqs
      let st2 : ClientRun := { st1 with reqs := st1.reqs + 1 }
      if s1 = 401 then
        match doRefreshToken env st2 with
        | (some _, st3) => finishRetry env st3
        | (none, st3) =>
            match doGetToken env st3 with
            | (some _, st4) => finishRetry env st4
            | (none, st4) => ⟨.error .tokenError, st4⟩
      else ⟨raiseForStatus s1, st2⟩

/-- Claim C8 as stated: a 401 on the first response causes exactly one
refresh attempt and exactly one retry, and a second 401 surfaces an
authentication error with no further retries. -/
def RefreshRetryClaim (env : CallEnv) (st0 : ClientRun) : Prop :=
  env.reqStatus st0.reqs = 401 →
    (controllerRequest env st0).final.refreshes
        = (ensureToken env st0).2.refreshes + 1 ∧
    (controllerRequest env st0).final.reqs = st0.reqs + 2 ∧
    (env.reqStatus (st0.reqs + 1) = 401 →
      (controllerRequest env st0).result = .error .authError)

/-- Post-401 token reacquisition succeeds with a token valid beyond the
60 s refresh margin: the refresh returns one, or the refresh fails and the
fallback token request returns one. -/
def ReacqSucceeds (env : CallEnv) (st0 : ClientRun) : Prop :=
  (∃ td, env.refreshResp st0.refreshes = some td ∧ td.expires_in > 60) ∨
  (env.refreshResp st0.refreshes = none ∧
    ∃ td, env.getResp st0.gets = some td ∧ td.expires_in > 60)

/-! ## Concrete instances used by the counterexamples and witnesses -/

/-- The concrete low-rate flow refuting claim C5: pkt_count absent,
pkt_rate 0.8, entropy and std absent (read as 0.0). -/
def lowRateNoCountFlow : InferFlow := { pkt_rate := some (4/5) }

/-- The two-event buffer refuting the claimed ordering of
get_recent_events. -/
def twoFlowEvents : List CachedEvent := [⟨"flow_update", 0⟩, ⟨"flow_update", 1⟩]

/-- The environment of an attempt whose create_policy succeeds and whose
apply_policy then raises. -/
def envCreateThenApplyFails : RespondEnv :=
  { create_result := some (some "pol-1"), apply_ok := false }

/-- The environment of a fully successful attempt. -/
def envRespondOk : RespondEnv :=
  { create_result := some (some "pol-2"), apply_ok := true }

/-- Two invocations for one flow: creation succeeds but apply fails, then a
retry fully succeeds — two policies created for flow-a. -/
def doubleCreateInvs : List (String × String × RespondEnv) :=
  [("flow-a", "block", envCreateThenApplyFails),
   ("flow-a", "block", envRespondOk)]

/-- The responder state invariant: every flow has at most one successful
creation, and a flow with one is still gated by the responded set. -/
def respondStateOk (st : RespondState) : Prop :=
  ∀ fid, createdCount st fid ≤ 1 ∧ (1 ≤ createdCount st fid → fid ∈ st.responded)

/-- A fully successful single invocation, witnessing the amended claim C3. -/
def singleRespondInvs : List (String × String × RespondEnv) :=
  [("flow-b", "redirect", envRespondOk)]

/-- Two concrete events of one flow for the claim C7 witness. -/
def flowEventOne : FlowEventPayload :=
  { src_ip := some "10.0.3.20", dst_ip := some "10.0.4.20",
    protocol := some "TCP", pkt_rate := some 5000, pkt_count := some 10 }

/-- The later event overwriting flowEventOne. -/
def flowEventTwo : FlowEventPayload :=
  { src_ip := some "10.0.3.21", dst_ip := some "10.0.4.20",
    protocol := some "UDP", pkt_rate := some 7, pkt_count := some 44,
    blocked := some true }

/-- The environment refuting claim C8: the first response is a 401 and both
the refresh and the fallback token request fail. -/
def failingAuthEnv : CallEnv :=
  { now := 0, refreshResp := fun _ => none, getResp := fun _ => none,
    reqStatus := fun _ => 401 }

/-- A client state holding a token far from expiry. -/
def freshTokenRun : ClientRun :=
  { token := some ⟨"tok", "ref", 10000⟩ }

/-- The policy refuting claim C1: active, matching everything, with
priority -1 and action drop. -/
def negativePriorityPolicy : Policy :=
  { id := some "p-neg", status := some "active", priority := some (-1),
    action := some "drop" }

/-- The all-None packet. -/
def emptyPacket : Packet := {}

/-- The policy refuting claim C2: active, its denied_ips holding the
remote IP, but no action field (defaulting to allow). -/
def deniedButAllowPolicy : Policy :=
  { id := some "p-acl", status := some "active", priority := some 100,
    conditions := { denied_ips := some ["10.0.3.20"] } }

/-- A packet whose source IP is on that denied list. -/
def deniedPacket : Packet :=
  { src_ip := some "10.0.3.20", dst_ip := some "10.0.1.5" }

/-- The witness policy for the amended claim C2: denied and allowed both
hold the remote IP, the action is block. -/
def deniedBlockPolicy : Policy :=
  { id := some "p-blk", status := some "active", priority := some 100,
    action := some "block",
    conditions := { allowed_ips := some ["10.0.3.20"],
                    denied_ips := some ["10.0.3.20"] } }

/-! ## Theorems -/

/-- Claim C10: with the service not loaded, predict_flow returns the
Unknown default and no whitelist rule (in particular the prob-0.01
low-rate whitelist) fires. -/
theorem predictFlow_not_loaded (tc : ThresholdConfig) (env : ModelEnv)
    (flow : InferFlow) :
    predictFlow false tc env flow = (⟨0, "Unknown", 0, .normal⟩, .notLoaded) ∧
    (predictFlow false tc env flow).1.prob ≠ 1/100 := by
  refine ⟨rfl, ?_⟩
  show (0 : ℚ) ≠ 1/100
  norm_num

/-- Claim C6: with the classifier loaded, a flow with pkt_rate below 5,
func_code_entropy below 0.1 and reg_addr_std below 5 short-circuits to the
prob-0.01 Normal result without calling the model; a low-rate flow with
elevated entropy or std is not whitelisted by this rule. -/
theorem predictFlow_low_rate_whitelist (tc : ThresholdConfig) (env : ModelEnv)
    (flow : InferFlow) (r : ℚ) :
    (flow.pkt_rate = some r → r < 5 → flow.func_code_entropy.getD 0 < 1/10 →
      flow.reg_addr_std.getD 0 < 5 →
      predictFlow true tc env flow = (⟨1/100, "Normal", 0, .normal⟩, .lowRateWhitelist)) ∧
    (flow.pkt_rate = some r → r < 5 →
      (1/10 ≤ flow.func_code_entropy.getD 0 ∨ 5 ≤ flow.reg_addr_std.getD 0) →
      (predictFlow true tc env flow).2 ≠ .lowRateWhitelist) := by
  constructor
  · intro hr h5 hent hstd
    have hc : lowRateWhitelisted flow = true := by
      unfold lowRateWhitelisted
      rw [hr]
      simp only [Bool.and_eq_true, decide_eq_true_eq]
      exact ⟨⟨h5, hent⟩, hstd⟩
    simp [predictFlow, hc]
  · intro hr h5 helev
    have hc : lowRateWhitelisted flow = false := by
      unfold lowRateWhitelisted
      rcases helev with h | h
      · have hent : decide (flow.func_code_entropy.getD 0 < 1/10) = false := by
          simp only [decide_eq_false_iff_not, not_lt]; exact h
        rw [hent]; simp
      · have hstd : decide (flow.reg_addr_std.getD 0 < 5) = false := by
          simp only [decide_eq_false_iff_not, not_lt]; exact h
        rw [hstd]; simp
    unfold predictFlow
    rw [hc]
    simp only [Bool.not_true, Bool.false_eq_true, if_false]
    split
    · simp
    · rcases env.outcome with _ | ⟨p, lab⟩ <;> simp

/-- Counterexample to claim C5 as stated: on a pkt_count-absent flow with
pkt_rate 0.8, predict_flow returns the prob-0.01 low-rate whitelist result,
not the prob-0 insufficient-data short-circuit. -/
theorem predictFlow_insufficient_data_cex :
    ¬ InsufficientDataClaim {} {} lowRateNoCountFlow := by
  intro h
  have h2 := (h rfl (4/5) rfl).1 (by norm_num)
  have hlw : lowRateWhitelisted lowRateNoCountFlow = true := by
    unfold lowRateWhitelisted lowRateNoCountFlow
    simp only [Option.getD_none, Bool.and_eq_true, decide_eq_true_eq]
    norm_num
  have h3 : (predictFlow true {} {} lowRateNoCountFlow).1.prob = 1/100 := by
    simp [predictFlow, hlw]
  rw [h3] at h2
  exact absurd h2.1 (by norm_num)

/-- Claim C5 (amended): with pkt_count absent and pkt_rate at most 1000,
predict_flow short-circuits at level normal — to the prob-0.01 result when
the low-rate whitelist fires first, and to the prob-0 insufficient-data
result otherwise; with pkt_count absent and pkt_rate above 1000 it
proceeds to the model. -/
theorem predictFlow_insufficient_data_amended (tc : ThresholdConfig)
    (env : ModelEnv) (flow : InferFlow) (r : ℚ) :
    (flow.pkt_count = none → flow.pkt_rate = some r → r ≤ 1000 →
      ¬(r < 5 ∧ flow.func_code_entropy.getD 0 < 1/10 ∧ flow.reg_addr_std.getD 0 < 5) →
      predictFlow true tc env flow = (⟨0, "Normal", 0, .normal⟩, .insufficientData)) ∧
    (flow.pkt_count = none → flow.pkt_rate = some r → r ≤ 1000 →
      (r < 5 ∧ flow.func_code_entropy.getD 0 < 1/10 ∧ flow.reg_addr_std.getD 0 < 5) →
      predictFlow true tc env flow = (⟨1/100, "Normal", 0, .normal⟩, .lowRateWhitelist)) ∧
    (flow.pkt_count = none → flow.pkt_rate = some r → r > 1000 →
      (predictFlow true tc env flow).2 = .modelCall) := by
  refine ⟨?_, ?_, ?_⟩
  · intro hcount hr hle hnw
    have hlw : lowRateWhitelisted flow = false := by
      unfold lowRateWhitelisted
      rw [hr]
      simp only [Bool.and_eq_true, decide_eq_true_eq, Bool.eq_false_iff, ne_eq]
      intro hc
      exact hnw ⟨hc.1.1, hc.1.2, hc.2⟩
    have hng : decide (r > 1000) = false := by
      simp only [decide_eq_false_iff_not, not_lt]; exact hle
    have hgate : insufficientDataGate flow = true := by
      unfold insufficientDataGate
      rw [hr, hcount]
      simp only [Option.isNone_none, Bool.true_and, hng, Bool.not_false]
    simp [predictFlow, hlw, hgate]
  · intro hcount hr hle hw
    have hlw : lowRateWhitelisted flow = true := by
      unfold lowRateWhitelisted
      rw [hr]
      simp only [Bool.and_eq_true, decide_eq_true_eq]
      exact ⟨⟨hw.1, hw.2.1⟩, hw.2.2⟩
    simp [predictFlow, hlw]
  · intro hcount hr hgt
    have h5 : decide (r < 5) = false := by
      simp only [decide_eq_false_iff_not, not_lt]
      linarith
    have hg : decide (r > 1000) = true := decide_eq_true hgt
    have hlw : lowRateWhitelisted flow = false := by
      unfold lowRateWhitelisted
      rw [hr]
      simp only [h5, Bool.false_and]
    have hgate : insufficientDataGate flow = false := by
      unfold insufficientDataGate
      rw [hr]
      simp only [hg, Bool.not_true, Bool.and_false]
    unfold predictFlow
    rw [hlw, hgate]
    rcases env.outcome with _ | ⟨p, lab⟩ <;> simp

/-- Claim C4: evaluation of the UI push of _process_batch.  The call
record_event_for_ui(det_event, session=session) never binds (the function
has the single parameter event), so the swallowed TypeError means no
flow_detection_result event is ever enqueued — in particular not for the
failing input, a dangerous result with prob 0.95 that the spec's filter
would pass. -/
theorem processBatch_pushes_no_ui_events :
    (∀ results, processBatchUiEvents results = []) ∧
    processBatchUiEvents [("flow-1", DecisionLevel.block, 19/20)] = [] ∧
    mapDecisionToStatus DecisionLevel.block = "dangerous" := by
  have hbind : pyCallBindsOk recordEventForUiParams 1 processBatchUiCallKwargs = false := rfl
  refine ⟨fun results => ?_, rfl, rfl⟩
  simp [processBatchUiEvents, hbind]

/-- Counterexample to claim C9 as stated: on a two-event buffer with limit
2 and no filter, get_recent_events returns oldest-first, not
most-recent-first. -/
theorem getRecentEvents_order_cex : ¬ RecentEventsClaim twoFlowEvents 2 none := by
  unfold RecentEventsClaim
  decide

/-- Claim C9 (amended): the query returns the filter-matching events among
the limit most recently appended (the whole buffer when limit is 0), in
buffer (oldest-first) order: at most limit entries for a positive limit,
every returned event matches the filter, every matching event of the
window is returned, and the buffer order is preserved. -/
theorem getRecentEvents_window_amended (buf : List CachedEvent) (limit : Nat)
    (filt : Option (List String)) :
    (limit ≠ 0 → (getRecentEvents buf limit filt).length ≤ limit) ∧
    (getRecentEvents buf limit filt).Sublist buf ∧
    (∀ e ∈ getRecentEvents buf limit filt, passesFilter filt e = true) ∧
    (∀ e ∈ pySliceLast buf limit, passesFilter filt e = true →
      e ∈ getRecentEvents buf limit filt) := by
  refine ⟨?_, ?_, ?_, ?_⟩
  · intro hl
    have h1 : (getRecentEvents buf limit filt).length ≤ (pySliceLast buf limit).length :=
      List.length_filter_le _ _
    have h2 : (pySliceLast buf limit).length ≤ limit := by
      unfold pySliceLast
      rw [if_neg hl, List.length_drop]
      omega
    omega
  · have h1 : (getRecentEvents buf limit filt).Sublist (pySliceLast buf limit) :=
      List.filter_sublist _
    have h2 : (pySliceLast buf limit).Sublist buf := by
      unfold pySliceLast
      split
      · exact List.Sublist.refl _
      · exact List.drop_sublist _ _
    exact h1.trans h2
  · intro e he
    exact (List.mem_filter.mp he).2
  · intro e he hf
    exact List.mem_filter.mpr ⟨he, hf⟩

/-- Counterexample to claim C3 as stated: when apply_policy fails after a
successful create_policy, the flow is removed from the responded set and a
retry successfully creates a second policy. -/
theorem autoRespond_once_cex : ¬ OncePerFlowClaim doubleCreateInvs := by
  intro h
  have h1 := h "flow-a"
  have h2 : createdCount (runResponder {} doubleCreateInvs) "flow-a" = 2 := by
    decide
  omega

theorem respondStep_preserves_ok (st : RespondState) (fid : String)
    (lvl : String) (env : RespondEnv) (henv : postCreateOk env = true)
    (h : respondStateOk st) : respondStateOk (respondStep st fid lvl env) := by
  intro x
  unfold respondStep
  by_cases hc : st.responded.contains fid
  · simp only [hc, if_true]
    exact h x
  · have hmem : fid ∉ st.responded := by
      simpa using hc
    simp only [hc, Bool.false_eq_true, if_false]
    by_cases hl : (lvl == "redirect" || lvl == "block") = true
    · simp only [hl, if_true]
      rcases hcr : env.create_result with _ | pid?
      · -- create_policy raised: the just-added fid is erased again
        simp only []
        rw [List.erase_cons_head]
        exact h x
      · -- create_policy returned: one created entry is appended
        have hcount : createdCount st fid = 0 := by
          rcases Nat.eq_zero_or_pos (createdCount st fid) with h0 | h1
          · exact h0
          · exact absurd ((h fid).2 h1) hmem
        rcases pid? with _ | pid
        · -- no policy_id: no apply attempt, fid stays responded
          simp only []
          constructor
          · by_cases hx : x = fid
            · subst hx
              unfold createdCount
              rw [List.count_cons_self]
              unfold createdCount at hcount
              omega
            · unfold createdCount
              rw [List.count_cons_of_ne (by simpa using hx)]
              exact (h x).1
          · intro hcx
            by_cases hx : x = fid
            · subst hx
              exact List.mem_cons_self _ _
            · unfold createdCount at hcx
              rw [List.count_cons_of_ne (by simpa using hx)] at hcx
              exact List.mem_cons_of_mem _ ((h x).2 hcx)
        · -- policy_id present: apply succeeds by postCreateOk
          have happ : env.apply_ok = true := by
            unfold postCreateOk at henv
            rw [hcr] at henv
            exact henv
          simp only [happ, if_true]
          constructor
          · by_cases hx : x = fid
            · subst hx
              unfold createdCount
              rw [List.count_cons_self]
              unfold createdCount at hcount
              omega
            · unfold createdCount
              rw [List.count_cons_of_ne (by simpa using hx)]
              exact (h x).1
          · intro hcx
            by_cases hx : x = fid
            · subst hx
              exact List.mem_cons_self _ _
            · unfold createdCount at hcx
              rw [List.count_cons_of_ne (by simpa using hx)] at hcx
              exact List.mem_cons_of_mem _ ((h x).2 hcx)
    · simp only [hl, Bool.false_eq_true, if_false]
      constructor
      · exact (h x).1
      · intro hcx
        exact List.mem_cons_of_mem _ ((h x).2 hcx)

theorem runResponder_preserves_ok (invs : List (String × String × RespondEnv))
    (st : RespondState) (henv : ∀ inv ∈ invs, postCreateOk inv.2.2 = true)
    (h : respondStateOk st) : respondStateOk (runResponder st invs) := by
  induction invs generalizing st with
  | nil => exact h
  | cons inv rest ih =>
      have hstep := respondStep_preserves_ok st inv.1 inv.2.1 inv.2.2
        (henv inv (List.mem_cons_self _ _)) h
      exact ih _ (fun i hi => henv i (List.mem_cons_of_mem _ hi)) hstep

/-- Claim C3 (amended): as long as no controller call fails after a
successful create_policy, at most one policy is created per flow_id; and
an invocation that passes the gate leaves its flow_id in the responded set
exactly when the response attempt does not fail. -/
theorem autoRespond_once_amended (invs : List (String × String × RespondEnv))
    (henv : ∀ inv ∈ invs, postCreateOk inv.2.2 = true) :
    (∀ fid, createdCount (runResponder {} invs) fid ≤ 1) ∧
    (∀ st fid lvl env, fid ∉ st.responded →
      (lvl = "redirect" ∨ lvl = "block") →
      (fid ∈ (respondStep st fid lvl env).responded ↔ ¬ RespondFailure env)) := by
  constructor
  · intro fid
    have hinit : respondStateOk {} := by
      intro x
      constructor
      · show ([] : List String).count x ≤ 1
        simp
      · intro hcx
        simp [createdCount] at hcx
    exact (runResponder_preserves_ok invs {} henv hinit fid).1
  · intro st fid lvl env hmem hl
    have hc : st.responded.contains fid = false := by
      simpa using hmem
    have hlb : (lvl == "redirect" || lvl == "block") = true := by
      rcases hl with h | h <;> simp [h]
    unfold respondStep
    simp only [hc, Bool.false_eq_true, if_false, hlb, if_true]
    rcases hcr : env.create_result with _ | pid?
    · rw [List.erase_cons_head]
      simp only []
      constructor
      · intro hx
        exact absurd hx hmem
      · intro hnf
        exact absurd (Or.inl hcr) hnf
    · rcases pid? with _ | pid
      · simp only []
        constructor
        · intro _
          rintro (hnone | ⟨p, hp, _⟩)
          · rw [hcr] at hnone
            exact Option.noConfusion hnone
          · rw [hcr] at hp
            have := Option.some.inj hp
            exact Option.noConfusion this
        · intro _
          exact List.mem_cons_self _ _
      · by_cases happ : env.apply_ok
        · simp only [happ, if_true]
          constructor
          · intro _
            rintro (hnone | ⟨p, hp, hfa⟩)
            · rw [hcr] at hnone
              exact Option.noConfusion hnone
            · rw [happ] at hfa
              exact Bool.noConfusion hfa
          · intro _
            exact List.mem_cons_self _ _
        · have happ' : env.apply_ok = false := by
            simpa using happ
          simp only [happ', Bool.false_eq_true, if_false]
          rw [List.erase_cons_head]
          constructor
          · intro hx
            exact absurd hx hmem
          · intro hnf
            exact absurd (Or.inr ⟨pid, hcr, happ'⟩) hnf

/-- Witness for the amended claim C3 at a concrete invocation sequence. -/
theorem autoRespond_once_amended_witness :
    (∀ fid, createdCount (runResponder {} singleRespondInvs) fid ≤ 1) ∧
    (∀ st fid lvl env, fid ∉ st.responded →
      (lvl = "redirect" ∨ lvl = "block") →
      (fid ∈ (respondStep st fid lvl env).responded ↔ ¬ RespondFailure env)) :=
  autoRespond_once_amended singleRespondInvs (by decide)

theorem baseOf_sync {T : Type} (parseIso : Option String → Option T)
    (jsonDumps : PVal → String) (fid : String)
    (st : Option (AppFlowRow T)) (e : FlowEventPayload) :
    baseOf (syncFlowToDb parseIso jsonDumps fid st e) = ingestOf parseIso jsonDumps e := by
  cases st <;> rfl

theorem detOf_sync {T : Type} (parseIso : Option String → Option T)
    (jsonDumps : PVal → String) (fid : String)
    (st : Option (AppFlowRow T)) (e : FlowEventPayload) :
    detOf (syncFlowToDb parseIso jsonDumps fid st e) =
      (match st with
       | some r0 => detOf r0
       | none => pendingDetection T) := by
  cases st <;> rfl

/-- Claim C7: ingesting any nonempty sequence of flow_update events of one
flow_id leaves the row's ingestion-owned fields equal to those computed
from the last event, and leaves the detection fields at their prior values
— the pending / normal / 0 creation defaults when the row did not exist. -/
theorem ingestEvents_last_write_wins {T : Type}
    (parseIso : Option String → Option T) (jsonDumps : PVal → String)
    (fid : String) (init : Option (AppFlowRow T))
    (es : List FlowEventPayload) (e : FlowEventPayload)
    (hlast : es.getLast? = some e) :
    ∃ r, ingestEvents parseIso jsonDumps fid init es = some r ∧
      baseOf r = ingestOf parseIso jsonDumps e ∧
      detOf r = (match init with
                 | some r0 => detOf r0
                 | none => pendingDetection T) := by
  induction es generalizing init with
  | nil => exact absurd hlast (by simp)
  | cons a rest ih =>
      rcases rest with _ | ⟨b, rest'⟩
      · -- single event: it is the last
        have ha : a = e := by
          simpa using hlast
        subst ha
        refine ⟨syncFlowToDb parseIso jsonDumps fid init a, rfl, ?_, ?_⟩
        · exact baseOf_sync parseIso jsonDumps fid init a
        · exact detOf_sync parseIso jsonDumps fid init a
      · -- step: fold once, then apply the inductive hypothesis
        have hlast' : (b :: rest').getLast? = some e := by
          rw [← hlast]
          exact List.getLast?_cons_cons.symm
        have hstep : ingestEvents parseIso jsonDumps fid init (a :: b :: rest') =
            ingestEvents parseIso jsonDumps fid
              (some (syncFlowToDb parseIso jsonDumps fid init a)) (b :: rest') := by
          rfl
        rw [hstep]
        obtain ⟨r, hr, hbase, hdet⟩ :=
          ih (some (syncFlowToDb parseIso jsonDumps fid init a)) hlast'
        refine ⟨r, hr, hbase, ?_⟩
        rw [hdet]
        exact detOf_sync parseIso jsonDumps fid init a

/-- Witness for claim C7 at a concrete two-event sequence, with the string
identity parser and a constant serializer. -/
theorem ingestEvents_last_write_wins_witness :
    ∃ r, ingestEvents (T := String) (fun s => s) (fun _ => "json") "flow-w" none
        [flowEventOne, flowEventTwo] = some r ∧
      baseOf r = ingestOf (fun s => s) (fun _ => "json") flowEventTwo ∧
      detOf r = (match (none : Option (AppFlowRow String)) with
                 | some r0 => detOf r0
                 | none => pendingDetection String) :=
  ingestEvents_last_write_wins (fun s => s) (fun _ => "json") "flow-w" none
    [flowEventOne, flowEventTwo] flowEventTwo rfl

theorem ensureToken_fresh (env : CallEnv) (st : ClientRun) (t : TokenPair)
    (htok : st.token = some t) (hfresh : t.expires_at > env.now + 60) :
    ensureToken env st = (some t.access_token, st) := by
  unfold ensureToken
  rw [htok]
  simp only [if_pos hfresh]

/-- Counterexample to claim C8 as stated: when the post-401 refresh fails
and the fallback token request also fails, the request is never retried
(one request in total, not two) and the propagated error is the token
failure. -/
theorem controllerRequest_no_retry_cex :
    ¬ RefreshRetryClaim failingAuthEnv freshTokenRun := by
  intro h
  obtain ⟨-, h2, -⟩ := h rfl
  have hreq : (controllerRequest failingAuthEnv freshTokenRun).final.reqs = 1 := by
    norm_num [controllerRequest, ensureToken, doRefreshToken, doGetToken,
      finishRetry, raiseForStatus, failingAuthEnv, freshTokenRun]
  rw [hreq] at h2
  simp [freshTokenRun] at h2

/-- Claim C8 (amended): on a first-response 401 with a stored fresh token,
the client makes exactly one refresh attempt; when the reacquisition
succeeds (directly or via the fallback token request) with a token valid
beyond the 60 s margin, the request is retried exactly once and a second
401 surfaces an authentication error with no further retries; when both
the refresh and the fallback fail, the token failure propagates and the
request is not retried. -/
theorem controllerRequest_retry_amended (env : CallEnv) (st0 : ClientRun)
    (t : TokenPair) :
    (st0.token = some t → t.expires_at > env.now + 60 →
      env.reqStatus st0.reqs = 401 → ReacqSucceeds env st0 →
      (controllerRequest env st0).final.refreshes = st0.refreshes + 1 ∧
      (controllerRequest env st0).final.reqs = st0.reqs + 2 ∧
      (env.reqStatus (st0.reqs + 1) = 401 →
        (controllerRequest env st0).result = .error .authError)) ∧
    (st0.token = some t → t.expires_at > env.now + 60 →
      env.reqStatus st0.reqs = 401 →
      env.refreshResp st0.refreshes = none → env.getResp st0.gets = none →
      (controllerRequest env st0).result = .error .tokenError ∧
      (controllerRequest env st0).final.reqs = st0.reqs + 1) := by
  constructor
  · intro htok hfresh h401 hre
    have hens := ensureToken_fresh env st0 t htok hfresh
    rcases hre with ⟨td, hresp, hei⟩ | ⟨hresp, td, hget, hei⟩
    · -- the refresh itself succeeds
      have hfresh2 : env.now + td.expires_in > env.now + 60 := by linarith
      refine ⟨?_, ?_, ?_⟩
      · simp [controllerRequest, hens, htok, hfresh, h401, doRefreshToken, htok, hresp,
          finishRetry, ensureToken, hfresh2]
      · simp [controllerRequest, hens, htok, hfresh, h401, doRefreshToken, htok, hresp,
          finishRetry, ensureToken, hfresh2]
      · intro h401b
        simp [controllerRequest, hens, htok, hfresh, h401, doRefreshToken, htok, hresp,
          finishRetry, ensureToken, hfresh2, raiseForStatus, h401b]
    · -- the refresh fails, the fallback token request succeeds
      have hfresh2 : env.now + td.expires_in > env.now + 60 := by linarith
      refine ⟨?_, ?_, ?_⟩
      · simp [controllerRequest, hens, htok, hfresh, h401, doRefreshToken, htok, hresp,
          doGetToken, hget, finishRetry, ensureToken, hfresh2]
      · simp [controllerRequest, hens, htok, hfresh, h401, doRefreshToken, htok, hresp,
          doGetToken, hget, finishRetry, ensureToken, hfresh2]
      · intro h401b
        simp [controllerRequest, hens, htok, hfresh, h401, doRefreshToken, htok, hresp,
          doGetToken, hget, finishRetry, ensureToken, hfresh2,
          raiseForStatus, h401b]
  · intro htok hfresh h401 hresp hget
    have hens := ensureToken_fresh env st0 t htok hfresh
    constructor
    · simp [controllerRequest, hens, htok, hfresh, h401, doRefreshToken, htok, hresp,
        doGetToken, hget]
    · simp [controllerRequest, hens, htok, hfresh, h401, doRefreshToken, htok, hresp,
        doGetToken, hget]

theorem matchedActive_append (L : List Policy) (p : Policy) (pkt : Packet) :
    matchedActive (L ++ [p]) pkt =
      matchedActive L pkt ++
        (if (isActive p && policyMatches p pkt) = true then [p] else []) := by
  unfold matchedActive
  rw [List.filter_append]
  congr 1
  cases h : isActive p && policyMatches p pkt <;> simp [List.filter, h]

theorem checkStep_skip (pkt : Packet) (st : CheckState) (p : Policy)
    (hp : ¬ (isActive p && policyMatches p pkt) = true) :
    checkStep pkt st p = st := by
  unfold checkStep
  cases hact : isActive p with
  | false => simp
  | true =>
      have hmatch : policyMatches p pkt = false := by
        rcases hm : policyMatches p pkt with _ | _
        · rfl
        · exact absurd (by rw [hact, hm]; rfl) hp
      simp [hmatch]

theorem checkStep_matched (pkt : Packet) (st : CheckState) (p : Policy)
    (hact : isActive p = true) (hmatch : policyMatches p pkt = true) :
    checkStep pkt st p =
      (if priorityOf p > st.highest then
        { final_action := resolvedAction p
          reason := p.name <|> p.id
          action_params := resolvedParams p st.action_params
          highest := priorityOf p }
       else st) := by
  unfold checkStep
  simp [hact, hmatch]

/-- The loop of check_packet, characterized: either every matched active
policy has negative priority and the accumulator is untouched, or the
accumulator carries the action, reason and priority of a matched active
policy of maximal priority (the first reaching it, by the strict
comparison against the running highest that starts at -1). -/
theorem checkFold_characterization (pkt : Packet) (ps : List Policy) :
    ((∀ q ∈ matchedActive ps pkt, priorityOf q < 0) ∧
      ps.foldl (checkStep pkt) {} = ({} : CheckState)) ∨
    (∃ w ∈ matchedActive ps pkt, 0 ≤ priorityOf w ∧
      (∀ q ∈ matchedActive ps pkt, priorityOf q ≤ priorityOf w) ∧
      (ps.foldl (checkStep pkt) {}).highest = priorityOf w ∧
      (ps.foldl (checkStep pkt) {}).final_action = resolvedAction w ∧
      (ps.foldl (checkStep pkt) {}).reason = (w.name <|> w.id)) := by
  induction ps using List.reverseRecOn with
  | nil =>
      left
      constructor
      · intro q hq
        simp [matchedActive] at hq
      · rfl
  | append_singleton L p ih =>
      rw [List.foldl_append, List.foldl_cons, List.foldl_nil, matchedActive_append]
      by_cases hp : (isActive p && policyMatches p pkt) = true
      · have hact : isActive p = true := (Bool.and_eq_true _ _ |>.mp hp).1
        have hmatch : policyMatches p pkt = true := (Bool.and_eq_true _ _ |>.mp hp).2
        rw [if_pos hp]
        rw [checkStep_matched pkt _ p hact hmatch]
        rcases ih with ⟨hneg, hst⟩ | ⟨w, hwmem, hw0, hwmax, hh, hf, hr⟩
        · rw [hst]
          by_cases hpr : priorityOf p > ({} : CheckState).highest
          · rw [if_pos hpr]
            right
            refine ⟨p, List.mem_append_right _ (List.mem_singleton_self p),
              ?_, ?_, rfl, rfl, rfl⟩
            · have : priorityOf p > -1 := hpr
              omega
            · intro q hq
              rcases List.mem_append.mp hq with h | h
              · have h1 : priorityOf q < 0 := hneg q h
                have h2 : priorityOf p > -1 := hpr
                omega
              · rw [List.mem_singleton] at h
                subst h
                exact le_refl _
          · rw [if_neg hpr]
            left
            constructor
            · intro q hq
              rcases List.mem_append.mp hq with h | h
              · exact hneg q h
              · rw [List.mem_singleton] at h
                subst h
                have : ¬ priorityOf q > -1 := hpr
                omega
            · rfl
        · by_cases hpr : priorityOf p > (L.foldl (checkStep pkt) {}).highest
          · rw [if_pos hpr]
            right
            rw [hh] at hpr
            refine ⟨p, List.mem_append_right _ (List.mem_singleton_self p),
              by omega, ?_, rfl, rfl, rfl⟩
            intro q hq
            rcases List.mem_append.mp hq with h | h
            · have := hwmax q h
              omega
            · rw [List.mem_singleton] at h
              subst h
              exact le_refl _
          · rw [if_neg hpr]
            right
            rw [hh] at hpr
            refine ⟨w, List.mem_append_left _ hwmem, hw0, ?_, hh, hf, hr⟩
            intro q hq
            rcases List.mem_append.mp hq with h | h
            · exact hwmax q h
            · rw [List.mem_singleton] at h
              subst h
              omega
      · rw [if_neg hp, checkStep_skip pkt _ p hp, List.append_nil]
        exact ih

/-- Counterexample to claim C1 as stated: a single matched active policy
with priority -1 and action drop is ignored (the running highest starts at
-1 and only a strictly greater priority is taken), so check_packet returns
allow instead of the matched policy's drop. -/
theorem checkPacket_negative_priority_cex :
    ¬ PriorityResolutionClaim [negativePriorityPolicy] emptyPacket := by
  intro h
  unfold PriorityResolutionClaim at h
  have hne : (matchedActive [negativePriorityPolicy] emptyPacket).isEmpty = false := by
    rfl
  rw [hne] at h
  simp only [Bool.false_eq_true, if_false] at h
  obtain ⟨p, hp, -, hact⟩ := h
  have hp' : p = negativePriorityPolicy := by
    have : matchedActive [negativePriorityPolicy] emptyPacket = [negativePriorityPolicy] := by
      rfl
    rw [this, List.mem_singleton] at hp
    exact hp
  subst hp'
  have h1 : (checkPacket [negativePriorityPolicy] emptyPacket).1 = "allow" := by rfl
  have h2 : resolvedAction negativePriorityPolicy = "drop" := by rfl
  rw [h1, h2] at hact
  exact absurd hact (by decide)

/-- Claim C1 (amended): matched active policies of negative priority are
ignored — when only such policies match (or none matches), check_packet
returns (allow, nil, empty params); when some matched active policy has
priority at least 0, the returned action and reason are those of a matched
active policy of maximal priority. -/
theorem checkPacket_priority_amended (ps : List Policy) (pkt : Packet) :
    ((∀ q ∈ matchedActive ps pkt, priorityOf q < 0) →
      checkPacket ps pkt = ("allow", none, PVal.dict [])) ∧
    ((∃ p ∈ matchedActive ps pkt, 0 ≤ priorityOf p) →
      ∃ w ∈ matchedActive ps pkt,
        (∀ q ∈ matchedActive ps pkt, priorityOf q ≤ priorityOf w) ∧
        (checkPacket ps pkt).1 = resolvedAction w ∧
        (checkPacket ps pkt).2.1 = (w.name <|> w.id)) := by
  have hcp : checkPacket ps pkt =
      ((ps.foldl (checkStep pkt) {}).final_action,
       (ps.foldl (checkStep pkt) {}).reason,
       (ps.foldl (checkStep pkt) {}).action_params) := rfl
  rcases checkFold_characterization pkt ps with ⟨hneg, hst⟩ | ⟨w, hwmem, hw0, hwmax, hh, hf, hr⟩
  · constructor
    · intro _
      rw [hcp, hst]
    · rintro ⟨p, hp, h0⟩
      have := hneg p hp
      omega
  · constructor
    · intro hneg
      have := hneg w hwmem
      omega
    · intro _
      refine ⟨w, hwmem, hwmax, ?_, ?_⟩
      · rw [hcp]
        exact hf
      · rw [hcp]
        exact hr

/-- Counterexample to claim C2 as stated: the denied_ips hit makes the
policy match, but the resolved action is the policy's own action field —
here the allow default — not drop. -/
theorem checkPacket_denied_allow_cex :
    ¬ DeniedDominatesClaim [deniedButAllowPolicy] deniedPacket := by
  intro h
  have h1 := h deniedButAllowPolicy (List.mem_singleton_self _) rfl rfl rfl rfl
  have h2 : (checkPacket [deniedButAllowPolicy] deniedPacket).1 = "allow" := by rfl
  rw [h2] at h1
  exact absurd h1 (by decide)

/-- Claim C2 (amended): a denied_ips hit dominates allowed_ips in making
the policy match, and when such a policy resolves to a drop action and
carries the (unique up to action) maximal nonnegative priority among
matched active policies, check_packet returns drop — whatever the
allowed_ips list says. -/
theorem checkPacket_denied_dominates (ps : List Policy) (pkt : Packet)
    (p : Policy) (hmem : p ∈ ps) (hact : isActive p = true)
    (hpre : matchesPre p pkt = true) (hden : aclDenied p pkt = true)
    (_hdrop : resolvedAction p = "drop") (h0 : 0 ≤ priorityOf p)
    (hmax : ∀ q ∈ matchedActive ps pkt, priorityOf q ≤ priorityOf p)
    (heq : ∀ q ∈ matchedActive ps pkt,
      priorityOf q = priorityOf p → resolvedAction q = "drop") :
    (checkPacket ps pkt).1 = "drop" := by
  have hrel : aclRelevant p = true := by
    unfold aclRelevant
    unfold aclDenied at hden
    rcases hd : p.conditions.denied_ips with _ | dl
    · rw [hd] at hden
      exact absurd hden (by simp)
    · simp [hd]
  have hm : policyMatches p pkt = true := by
    unfold policyMatches
    rw [hpre, hrel, hden]
    simp
  have hpmem : p ∈ matchedActive ps pkt := by
    unfold matchedActive
    rw [List.mem_filter]
    exact ⟨hmem, by rw [hact, hm]; rfl⟩
  have hcp : checkPacket ps pkt =
      ((ps.foldl (checkStep pkt) {}).final_action,
       (ps.foldl (checkStep pkt) {}).reason,
       (ps.foldl (checkStep pkt) {}).action_params) := rfl
  rcases checkFold_characterization pkt ps with ⟨hneg, -⟩ | ⟨w, hwmem, -, hwmax, -, hf, -⟩
  · have := hneg p hpmem
    omega
  · have h1 : priorityOf w = priorityOf p :=
      le_antisymm (hmax w hwmem) (hwmax p hpmem)
    have h2 : resolvedAction w = "drop" := heq w hwmem h1
    rw [hcp]
    show (ps.foldl (checkStep pkt) {}).final_action = "drop"
    rw [hf, h2]

/-- Witness for the amended claim C2 at a concrete store and packet (the
spec's deny-overrides-allow scenario). -/
theorem checkPacket_denied_dominates_witness :
    (checkPacket [deniedBlockPolicy] deniedPacket).1 = "drop" :=
  checkPacket_denied_dominates [deniedBlockPolicy] deniedPacket
    deniedBlockPolicy (List.mem_singleton_self _) rfl rfl rfl rfl
    (by decide)
    (fun q hq => by
      have hq' : q = deniedBlockPolicy := by
        have hev : matchedActive [deniedBlockPolicy] deniedPacket =
            [deniedBlockPolicy] := rfl
        rw [hev, List.mem_singleton] at hq
        exact hq
      rw [hq'])
    (fun q hq _ => by
      have hq' : q = deniedBlockPolicy := by
        have hev : matchedActive [deniedBlockPolicy] deniedPacket =
            [deniedBlockPolicy] := rfl
        rw [hev, List.mem_singleton] at hq
        exact hq
      rw [hq']
      rfl)

end ICSGuard
